import Mathlib

/-!
Verification of the `cv_screening` repository (files `main.py` and `app.py`)
against its natural-language specification.

The Python sources are shallowly embedded below.  External collaborators
(the `requests`/`openai` transport, `json.loads`, `pdfplumber`, the Supabase
client, the process environment and the Streamlit secret store) are modelled
by their observable results, supplied as explicit oracle arguments:

* the JSON decoder `json.loads` is abstracted by a function
  `loads : String → Option String → ...` result (`none` = decode exception);
* one HTTP exchange of `interactuar_con_ollama` is an `OllamaWire` value;
* one chat-completion call of `interactuar_con_gpt` is a `GptWire` value;
* the PDF document behind a path / upload is a `PdfDoc` value;
* the Supabase insert call is a `DbOutcome` value.

Machine integers do not occur in the modelled code paths; JSON numbers are
modelled as `Int` (no claim touches fractional values).  Console prints and
Streamlit error boxes are modelled by explicit log constructors at the call
sites a claim refers to.
-/

/-- Parsed JSON values, the result type of `json.loads` and the payload type
of the candidate / evaluation records. -/
inductive Json where
  | null : Json
  | bool : Bool → Json
  | num : Int → Json
  | str : String → Json
  | arr : List Json → Json
  | obj : List (String × Json) → Json

/-- Python truthiness (`if not resultado`) of a parsed JSON value:
`None`, `False`, `0`, `""`, `[]` and `{}` are falsy. -/
def pyFalsy : Json → Bool
  | .null => true
  | .bool b => !b
  | .num n => n == 0
  | .str s => s == ""
  | .arr l => l.isEmpty
  | .obj l => l.isEmpty

/-- `True` iff the value is a JSON object (a Python `dict`). -/
def isMapping : Json → Bool
  | .obj _ => true
  | _ => false

/-- First value bound to `key` in an association list (Python `d[key]` /
`d.get(key)` on a dict). -/
def jsonLookup : List (String × Json) → String → Option Json
  | [], _ => none
  | (k, v) :: rest, key => if k = key then some v else jsonLookup rest key

/-- `listStarts pat l` = `pat` is an initial segment of `l`. -/
def listStarts : List Char → List Char → Bool
  | [], _ => true
  | _ :: _, [] => false
  | a :: as, b :: bs => a == b && listStarts as bs

/-- `listHasSub pat l` = `pat` occurs contiguously inside `l`
(Python `pat in s` for strings). -/
def listHasSub : List Char → List Char → Bool
  | pat, [] => pat.isEmpty
  | pat, l@(_ :: rest) => listStarts pat l || listHasSub pat rest

/-- Python membership `key in v` for a parsed JSON value `v`:
key lookup on dicts, element equality on lists, substring test on strings;
`none` models the `TypeError` raised on numbers, booleans and `None`. -/
def keyMem (key : String) : Json → Option Bool
  | .obj l => some (l.any (fun p => p.1 == key))
  | .arr l => some (l.any (fun x => match x with | .str s => s == key | _ => false))
  | .str s => some (listHasSub key.data s.data)
  | _ => none

/-- Boolean key-presence test on a JSON value (true only for objects that
bind the key). -/
def hasKeyB (v : Json) (key : String) : Bool :=
  match v with
  | .obj l => l.any (fun p => p.1 == key)
  | _ => false

/-- Python `v.get(key, default)`: `none` models the `AttributeError` raised
when `v` is not a dict; the boolean records whether the default was taken. -/
def pyGet (v : Json) (key : String) (default : Json) : Option (Json × Bool) :=
  match v with
  | .obj l =>
    match jsonLookup l key with
    | some x => some (x, false)
    | none => some (default, true)
  | _ => none

/-- Python `all(k in v for k in ks)` with the generator's left-to-right
short-circuit; `none` models a `TypeError` escaping from the membership
test. -/
def allKeysChecked : List String → Json → Option Bool
  | [], _ => some true
  | k :: ks, v =>
    match keyMem k v with
    | none => none
    | some false => some false
    | some true => allKeysChecked ks v

/- ==========================================
   main.py — configuration constants
   ========================================== -/

/-- `main.py` line 21: the inference endpoint of the local pipeline is a
hardcoded constant, not a configuration value. -/
def OLLAMA_API_URL : String := "http://localhost:11434/api/generate"

/-- `main.py` line 22: the model identifier of the local pipeline is a
hardcoded constant, not a configuration value. -/
def MODELO : String := "gpt-oss:120b-cloud"

/-- `app.py` line 38: the cloud inference endpoint is a hardcoded constant. -/
def GITHUB_MODELS_BASE_URL : String := "https://models.inference.ai.azure.com"

/-- `app.py` line 45: the cloud model identifier is a hardcoded constant. -/
def MODELO_NUBE : String := "gpt-4.1"

/- ==========================================
   LLM gateways
   ========================================== -/

/-- Observable result of the single `requests.post` exchange in
`interactuar_con_ollama`:
* `netError` — `requests.post` raised;
* `reply status body` — an HTTP response with the given status code, where
  `body` is the result of `response.json()` (`none` = that call raised). -/
inductive OllamaWire where
  | netError : OllamaWire
  | reply : Nat → Option Json → OllamaWire

/-- `requests.Response.raise_for_status` raises exactly for client and
server error codes, 400 ≤ status < 600. -/
def raise_for_status_fails (status : Nat) : Bool :=
  400 ≤ status && status < 600

/-- `main.py` lines 60–67: the body handling of `interactuar_con_ollama`
after a successful `response.json()`.  `loads` abstracts `json.loads`
(`none` = decode exception, absorbed by the inner `except`). -/
def ollama_handle_data (loads : String → Option Json) (data : Json) : Json :=
  match keyMem "response" data with
  | none => Json.obj []            -- TypeError in `'response' not in data`, outer except
  | some false => Json.obj []      -- explicit `return {}` (unexpected reply)
  | some true =>
    match data with
    | .obj l =>
      match jsonLookup l "response" with
      | some (.str payload) => (loads payload).getD (Json.obj [])
      | _ => Json.obj []           -- json.loads on a non-string raises, inner except
    | _ => Json.obj []             -- data['response'] on a non-dict raises, inner except

/-- `main.py` lines 45–70, `interactuar_con_ollama`.  The external endpoint
is an oracle `wire` indexed by the number `n` of requests already issued;
the second component is the updated request count (the single
`requests.post` is the only transport call, so it always grows by one).
The prompt text only travels to the external endpoint and therefore does
not appear in the model. -/
def interactuar_con_ollama (loads : String → Option Json)
    (wire : Nat → OllamaWire) (n : Nat) : Json × Nat :=
  (match wire n with
   | .netError => Json.obj []
   | .reply status body =>
     if raise_for_status_fails status then Json.obj []
     else
       match body with
       | none => Json.obj []
       | some data => ollama_handle_data loads data,
   n + 1)

/-- Observable result of the single `llm.chat.completions.create` call in
`app.py`'s `interactuar_con_gpt`:
* `exn msg` — the call raised (transport error, error status, missing
  response field — all surface as exceptions of the client library);
* `content s` — the call returned, with `response.choices[0].message.content`
  equal to `s` (`none` models a `None` content, on which `json.loads`
  raises). -/
inductive GptWire where
  | exn : String → GptWire
  | content : Option String → GptWire

/-- Streamlit-visible messages of `app.py` modelled in this development. -/
inductive AppLog where
  | missingInputs : AppLog            -- st.warning "⚠️ Ingresa el Job Spec y sube un CV."
  | pdfError : String → AppLog        -- st.error in extraer_texto_en_memoria
  | gptError : String → AppLog        -- st.error in interactuar_con_gpt

/-- Result of one `interactuar_con_gpt` call: value, updated request count,
and the Streamlit error boxes it displayed. -/
structure GptOut where
  res : Json
  count : Nat
  logs : List AppLog

/-- `app.py` lines 64–81, `interactuar_con_gpt`.  A single synchronous call;
every exception (including a `json.loads` failure on the returned content)
is absorbed into `{}` with an `st.error` box. -/
def interactuar_con_gpt (loads : String → Option Json)
    (gwire : Nat → GptWire) (n : Nat) : GptOut :=
  match gwire n with
  | .exn msg => ⟨Json.obj [], n + 1, [.gptError msg]⟩
  | .content none => ⟨Json.obj [], n + 1, [.gptError "json.loads(None)"]⟩
  | .content (some s) =>
    match loads s with
    | some v => ⟨v, n + 1, []⟩
    | none => ⟨Json.obj [], n + 1, [.gptError "JSONDecodeError"]⟩

/- ==========================================
   CV structurer and candidate evaluator (main.py)
   ========================================== -/

/-- The required-key validation shared by `estructurar_cv` (lines 86–94) and
`evaluar_candidato` (lines 114–121):
`if not resultado or not all(k in resultado for k in ks): return default`.
`none` models the `TypeError` escaping when `resultado` is truthy but not a
container (the `all` generator raises outside any handler). -/
def validate_required (ks : List String) (default : Json) (resultado : Json) :
    Option Json :=
  if pyFalsy resultado then some default
  else
    match allKeysChecked ks resultado with
    | none => none
    | some true => some resultado
    | some false => some default

/-- `main.py` line 86: the four required candidate-record keys, in the order
the generator tests them. -/
def required_cv_keys : List String := ["nombre", "email", "habilidades", "experiencia_años"]

/-- `main.py` lines 88–93: the default candidate record. -/
def default_cv : Json :=
  .obj [("nombre", .str "Desconocido"), ("email", .str ""),
        ("habilidades", .arr []), ("experiencia_años", .num 0)]

/-- Validation step of `estructurar_cv` applied to the gateway result. -/
def estructurar_cv_validate (resultado : Json) : Option Json :=
  validate_required required_cv_keys default_cv resultado

/-- `main.py` lines 72–94, `estructurar_cv`: one gateway call followed by
the required-key validation (the prompt built from `texto_crudo` only
travels to the oracle endpoint). -/
def estructurar_cv (loads : String → Option Json) (wire : Nat → OllamaWire)
    (n : Nat) : Option Json × Nat :=
  let r := interactuar_con_ollama loads wire n
  (estructurar_cv_validate r.1, r.2)

/-- `main.py` line 114: the three required evaluation-record keys. -/
def required_eval_keys : List String := ["score", "decision", "razonamiento"]

/-- `main.py` lines 116–120: the default evaluation record. -/
def default_eval : Json :=
  .obj [("score", .num 0), ("decision", .str "Error"),
        ("razonamiento", .str "No se pudo obtener una evaluación válida.")]

/-- Validation step of `evaluar_candidato` applied to the gateway result. -/
def evaluar_candidato_validate (resultado : Json) : Option Json :=
  validate_required required_eval_keys default_eval resultado

/-- `main.py` lines 96–121, `evaluar_candidato`: one gateway call followed
by the required-key validation.  (`json.dumps(cv_json)` in the prompt never
raises on a parsed-JSON value, so prompt building has no modelled effect.) -/
def evaluar_candidato (loads : String → Option Json) (wire : Nat → OllamaWire)
    (n : Nat) : Option Json × Nat :=
  let r := interactuar_con_ollama loads wire n
  (evaluar_candidato_validate r.1, r.2)

/- ==========================================
   Text extractor
   ========================================== -/

/-- A PDF resource as seen through `pdfplumber`:
* `failure msg` — `pdfplumber.open` (or the page iteration) raised;
* `pages ps` — the document opened, and `pagina.extract_text()` returned
  `ps[i]` on page `i` (`none` models a `None` result). -/
inductive PdfDoc where
  | failure : String → PdfDoc
  | pages : List (Option String) → PdfDoc

/-- Console messages of `main.py` modelled in this development: the two
prints of `extraer_texto_pdf` and the three outcomes of the persistence
step.  (The progress prints between those steps are warnings only on paths
no claim touches; they are not modelled.) -/
inductive MainLog where
  | extractOk : String → MainLog      -- "[+] Texto extraído exitosamente de {ruta}"
  | extractErr : String → MainLog     -- "[-] Error al extraer texto: {e}"
  | dbExnErr : String → MainLog       -- "[-] Error al guardar en base de datos: {e}"
  | dbStatusErr : MainLog             -- "[-] Error al guardar en base de datos: {respuesta}"
  | dbOk : MainLog                    -- "[+] Datos guardados exitosamente en Supabase."

/-- Messages printed with the `[-]` failure marker (the user-visible
warnings of `main.py`). -/
def isWarningMain : MainLog → Bool
  | .extractErr _ => true
  | .dbExnErr _ => true
  | .dbStatusErr => true
  | _ => false

/-- Python's `str.isspace()` character class, the set stripped by
`str.strip()`: tab–carriage-return (9–13), the separators 28–31, space,
NEL (U+0085), NBSP (U+00A0), Ogham space mark (U+1680), the en-quad–hair-
space block (U+2000–U+200A), line/paragraph separator (U+2028/U+2029),
narrow no-break space (U+202F), medium mathematical space (U+205F) and
ideographic space (U+3000). -/
def pyIsSpace (c : Char) : Bool :=
  let n := c.toNat
  (9 ≤ n && n ≤ 13) || (28 ≤ n && n ≤ 32) ||
  n == 0x85 || n == 0xA0 || n == 0x1680 ||
  (0x2000 ≤ n && n ≤ 0x200A) ||
  n == 0x2028 || n == 0x2029 || n == 0x202F || n == 0x205F || n == 0x3000

/-- Python `str.strip()` on the character list of a string: drop Python
whitespace from both ends. -/
def pyStrip (l : List Char) : List Char :=
  ((l.dropWhile pyIsSpace).reverse.dropWhile pyIsSpace).reverse

/-- One iteration of the extraction loop of both extractors:
`texto += pagina_texto + "\n"` when the page's extracted text is truthy. -/
def pageStep (acc : List Char) (t : Option String) : List Char :=
  match t with
  | some s => if s = "" then acc else acc ++ s.data ++ ['\n']
  | none => acc

/-- The accumulation loop of both extractors over all pages. -/
def foldPages (ps : List (Option String)) : List Char :=
  ps.foldl pageStep []

/-- `main.py` lines 28–43, `extraer_texto_pdf`: page texts concatenated with
newlines and stripped; any exception degrades to `""`.  The success print
happens even when no page contributed text. -/
def extraer_texto_pdf (ruta_pdf : String) (doc : PdfDoc) : String × List MainLog :=
  match doc with
  | .failure e => ("", [.extractErr e])
  | .pages ps => (⟨pyStrip (foldPages ps)⟩, [.extractOk ruta_pdf])

/-- `app.py` lines 50–62, `extraer_texto_en_memoria`: identical loop; the
only user-visible message is the `st.error` on an exception. -/
def extraer_texto_en_memoria (doc : PdfDoc) : String × List AppLog :=
  match doc with
  | .failure e => ("", [.pdfError e])
  | .pages ps => (⟨pyStrip (foldPages ps)⟩, [])

/-- Spec-side description of the extractor output: the page texts that are
truthy, in page order. -/
def contribPages (ps : List (Option String)) : List (List Char) :=
  ps.filterMap
    (fun t =>
      match t with
      | some s => if s = "" then none else some s.data
      | none => none)

/-- Spec-side "newline-joined concatenation": the chunks separated by a
single `'\n'`, with no trailing separator. -/
def joinSep : List (List Char) → List Char
  | [] => []
  | [c] => c
  | c :: rest => c ++ '\n' :: joinSep rest

/-- The concatenation produced by the extraction loop: every chunk followed
by a `'\n'`. -/
def chunksNl (cs : List (List Char)) : List Char :=
  cs.foldr (fun c r => c ++ '\n' :: r) []

/-- Spec-side extractor output: the trimmed newline-joined concatenation of
the contributing page texts. -/
def specExtract (ps : List (Option String)) : List Char :=
  pyStrip (joinSep (contribPages ps))

/-- `s.data.isEmpty` — boolean emptiness of a string through its character
list. -/
def strIsEmpty (s : String) : Bool := s.data.isEmpty

/- ==========================================
   Persistence and the main.py pipeline
   ========================================== -/

/-- Observable result of the Supabase insert call:
* `exn msg` — `.execute()` raised;
* `ok status` — it returned, with `status` the value of the `status_code`
  attribute when present (`none` = `hasattr` is false). -/
inductive DbOutcome where
  | exn : String → DbOutcome
  | ok : Option Nat → DbOutcome

/-- Effects of one `procesar_candidato` run (`main.py` lines 127–160):
LLM requests issued, insert calls issued, whether any of the four `.get`
fallback defaults of `data_insercion` was taken, whether an uncaught
exception aborted the run, and the modelled console messages. -/
structure MainRun where
  llmCalls : Nat
  insertAttempts : Nat
  fallbackUsed : Bool
  raised : Bool
  logs : List MainLog

/-- `main.py` lines 127–160, `procesar_candidato`.
Control flow: abort (plain `return`) on empty extraction; a `TypeError`
escaping a validator or an `AttributeError` from `.get` on a non-dict
record aborts the run with an exception; only the persistence step is
inside a `try`. -/
def procesar_candidato (loads : String → Option Json) (wire : Nat → OllamaWire)
    (ruta_pdf : String) (doc : PdfDoc) (db : DbOutcome) : MainRun :=
  match extraer_texto_pdf ruta_pdf doc with
  | (texto_cv, logs1) =>
    if texto_cv = "" then ⟨0, 0, false, false, logs1⟩
    else
      match estructurar_cv loads wire 0 with
      | (none, n1) => ⟨n1, 0, false, true, logs1⟩
      | (some cv_estructurado, n1) =>
        -- line 135: print(f"... {cv_estructurado.get('nombre', 'Desconocido')}")
        match pyGet cv_estructurado "nombre" (.str "Desconocido") with
        | none => ⟨n1, 0, false, true, logs1⟩
        | some _ =>
          match evaluar_candidato loads wire n1 with
          | (none, n2) => ⟨n2, 0, false, true, logs1⟩
          | (some evaluacion, n2) =>
            -- lines 139–140: evaluacion.get('score') / ...('decision') / ...('razonamiento')
            match pyGet evaluacion "score" .null with
            | none => ⟨n2, 0, false, true, logs1⟩
            | some _ =>
              -- lines 143–150: data_insercion, inside the try
              match pyGet cv_estructurado "nombre" (.str "Sin Nombre"),
                    pyGet evaluacion "score" (.num 0),
                    pyGet evaluacion "decision" (.str "Error"),
                    pyGet evaluacion "razonamiento" (.str "Sin razón") with
              | some (_, f1), some (_, f2), some (_, f3), some (_, f4) =>
                let fb := f1 || f2 || f3 || f4
                match db with
                | .exn m => ⟨n2, 1, fb, false, logs1 ++ [.dbExnErr m]⟩
                | .ok none => ⟨n2, 1, fb, false, logs1 ++ [.dbOk]⟩
                | .ok (some code) =>
                  if code = 201 then ⟨n2, 1, fb, false, logs1 ++ [.dbOk]⟩
                  else ⟨n2, 1, fb, false, logs1 ++ [.dbStatusErr]⟩
              -- dead code: both records are dicts here, so the `.get` calls
              -- cannot raise; a raise inside the try would be caught and logged
              | _, _, _, _ => ⟨n2, 0, false, false, logs1 ++ [.dbExnErr "AttributeError"]⟩

/- ==========================================
   The app.py pipeline
   ========================================== -/

/-- The flat record `data_insercion` of `app.py` lines 124–130. -/
structure InsertRecord where
  nombre_candidato : Json
  datos_cv : Json
  score : Json
  decision : Json
  razonamiento : Json

/-- Effects of one button-press run of `app.py` (lines 103–149). -/
structure AppRun where
  llmCalls : Nat
  insertAttempts : Nat
  inserted : Option InsertRecord
  raised : Bool
  uiLogs : List AppLog

/-- `app.py` lines 103–149, the module-level pipeline behind the
"Ejecutar Motor de Evaluación" button.  There is no validation layer: the
raw gateway results feed `data_insercion` via per-field `.get` defaults,
and the insert call is not wrapped in a handler, so a failing insert
raises out of the script run. -/
def app_pipeline (loads : String → Option Json) (gwire : Nat → GptWire)
    (job_spec : String) (archivo_subido : Option PdfDoc) (db : DbOutcome) : AppRun :=
  if job_spec = "" || archivo_subido.isNone then ⟨0, 0, none, false, [.missingInputs]⟩
  else
    match archivo_subido with
    | none => ⟨0, 0, none, false, [.missingInputs]⟩   -- unreachable: isNone handled above
    | some doc =>
      match extraer_texto_en_memoria doc with
      | (texto_cv, logs1) =>
        if texto_cv = "" then ⟨0, 0, none, false, logs1⟩
        else
          match interactuar_con_gpt loads gwire 0 with
          | ⟨cv_json, n1, glogs1⟩ =>
            match interactuar_con_gpt loads gwire n1 with
            | ⟨evaluacion, n2, glogs2⟩ =>
              let logs := logs1 ++ glogs1 ++ glogs2
              match pyGet cv_json "nombre" (.str "Desconocido") with
              | none => ⟨n2, 0, none, true, logs⟩
              | some (nom, _) =>
                match pyGet evaluacion "score" (.num 0),
                      pyGet evaluacion "decision" (.str "Error"),
                      pyGet evaluacion "razonamiento" (.str "Sin razón") with
                | some (sc, _), some (de, _), some (ra, _) =>
                  match db with
                  | .exn _ => ⟨n2, 1, none, true, logs⟩
                  | .ok _ => ⟨n2, 1, some ⟨nom, cv_json, sc, de, ra⟩, false, logs⟩
                | _, _, _ => ⟨n2, 0, none, true, logs⟩

/- ==========================================
   Configuration / startup
   ========================================== -/

/-- Lookup in a string-to-string environment (`os.environ.get` after
`load_dotenv`, or the Streamlit secret store). -/
def lookupStr : List (String × String) → String → Option String
  | [], _ => none
  | (k, v) :: rest, key => if k = key then some v else lookupStr rest key

/-- Python truthiness of an optional string (`not x` for a value that is
`None` or a string). -/
def optTruthy : Option String → Bool
  | none => false
  | some s => !(s == "")

/-- Startup outcome of either entry point. -/
inductive StartupResult where
  | halted : String → StartupResult
  | started : List String → StartupResult

/-- `main.py` lines 12–16: read the two Supabase values from the (dotenv-
extended) environment and raise `ValueError` when either is missing or
empty.  No other value is read from configuration. -/
def main_startup (env : List (String × String)) : StartupResult :=
  let url := lookupStr env "SUPABASE_URL"
  let key := lookupStr env "SUPABASE_KEY"
  if !(optTruthy url) || !(optTruthy key) then
    .halted "Faltan las variables SUPABASE_URL o SUPABASE_KEY en el entorno o .env"
  else .started [url.getD "", key.getD ""]

/-- `app.py` lines 17–27: the layered lookup of `init_connections`.  The
`try` reads the three keys from the Streamlit secret store
(`none` = the store itself is absent, raising `FileNotFoundError`); a
single missing key raises `KeyError` and abandons the secret store
wholesale for the environment. -/
def resolveCreds (secrets : Option (List (String × String)))
    (env : List (String × String)) :
    Option String × Option String × Option String :=
  match secrets with
  | some s =>
    match lookupStr s "SUPABASE_URL", lookupStr s "SUPABASE_KEY",
          lookupStr s "GITHUB_TOKEN" with
    | some u, some k, some t => (some u, some k, some t)
    | _, _, _ =>
      (lookupStr env "SUPABASE_URL", lookupStr env "SUPABASE_KEY",
       lookupStr env "GITHUB_TOKEN")
  | none =>
    (lookupStr env "SUPABASE_URL", lookupStr env "SUPABASE_KEY",
     lookupStr env "GITHUB_TOKEN")

/-- `app.py` lines 14–44, `init_connections`: resolve the three credentials
and halt (st.error + st.stop) when any is missing or empty.  The endpoint
URL and the model identifier are not part of this check — they are the
hardcoded constants `GITHUB_MODELS_BASE_URL` and `MODELO_NUBE`. -/
def init_connections (secrets : Option (List (String × String)))
    (env : List (String × String)) : StartupResult :=
  match resolveCreds secrets env with
  | (u, k, t) =>
    if !(optTruthy u) || !(optTruthy k) || !(optTruthy t) then
      .halted "🚨 Faltan credenciales. Verifica Supabase URL/KEY y GITHUB_TOKEN."
    else .started [u.getD "", k.getD "", t.getD ""]

/- ==========================================
   Review dashboard (modelled from the spec)
   ========================================== -/

/-- Modelled from the spec: a Stored Evaluation Row as read back by the
Review Dashboard (the dashboard source is not under `src/`; spec §3 and
§4.7 define its shape as the union of candidate name, structured blob,
score, decision and rationale). -/
structure StoredRow where
  nombre_candidato : String
  datos_cv : Json
  score : Int
  decision : String
  razonamiento : String

/-- ASCII lowercasing of a string through its character list (the
case-insensitive comparison of the dashboard). -/
def lowerAscii (s : String) : String :=
  ⟨s.data.map (fun c => if 'A' ≤ c && c ≤ 'Z' then Char.ofNat (c.toNat + 32) else c)⟩

/-- Modelled from the spec: the dashboard's count of rows whose decision
equals "Apto" case-insensitively (spec §4.7). -/
def conteoAptos (rows : List StoredRow) : Nat :=
  rows.countP (fun r => lowerAscii r.decision = "apto")

/-- Modelled from the spec: the dashboard's approval rate rendered to one
decimal place, in tenths of a percent (spec §4.7: the ratio of "Apto" rows
to all rows as a percentage with one decimal, and a zero placeholder — no
division — when there are no rows). -/
def tasaAprobacionDecimas (rows : List StoredRow) : Nat :=
  if rows.length = 0 then 0
  else (2000 * conteoAptos rows + rows.length) / (2 * rows.length)

/- ==========================================
   Concrete fixtures (oracles used by closed instances)
   ========================================== -/

/-- A well-formed candidate record. -/
def cvFull : Json :=
  .obj [("nombre", .str "Jane"), ("email", .str "j@x.com"),
        ("habilidades", .arr [.str "Python"]), ("experiencia_años", .num 4)]

/-- A well-formed evaluation record. -/
def evFull : Json :=
  .obj [("score", .num 85), ("decision", .str "Apto"), ("razonamiento", .str "ok")]

/-- A candidate record carrying the four required keys plus one extra key. -/
def cvExtraFields : List (String × Json) :=
  [("nombre", .str "Jane"), ("email", .str "j@x.com"),
   ("habilidades", .arr [.str "Python"]), ("experiencia_años", .num 4),
   ("extra", .str "sobra")]

/-- A fixed `json.loads` oracle covering the concrete payloads used below. -/
def loadsFix : String → Option Json :=
  fun s =>
    if s = "CV" then some cvFull
    else if s = "EV" then some evFull
    else if s = "7" then some (.num 7)
    else if s = "[1,2]" then some (.arr [.num 1, .num 2])
    else if s = "5" then some (.num 5)
    else none

/-- An Ollama endpoint answering the structuring call with `cvFull` and the
evaluation call with `evFull`. -/
def wireT : Nat → OllamaWire :=
  fun n => .reply 200 (some (.obj [("response", .str (if n = 0 then "CV" else "EV"))]))

/-- A cloud endpoint answering the structuring call with `cvFull` and the
evaluation call with `evFull`. -/
def gwireT : Nat → GptWire :=
  fun n => .content (some (if n = 0 then "CV" else "EV"))

/-- An Ollama endpoint whose final response has a redirect-class status and
a well-formed body. -/
def wire300 : Nat → OllamaWire :=
  fun _ => .reply 300 (some (.obj [("response", .str "7")]))

/-- An Ollama endpoint returning a JSON array payload with success status. -/
def wireArr200 : Nat → OllamaWire :=
  fun _ => .reply 200 (some (.obj [("response", .str "[1,2]")]))

/-- An Ollama endpoint whose transport always raises. -/
def wireNetErr : Nat → OllamaWire := fun _ => .netError

/-- A cloud endpoint returning a JSON number payload. -/
def gwireNum5 : Nat → GptWire := fun _ => .content (some "5")

/-- A cloud endpoint whose client call always raises. -/
def gwireDown : Nat → GptWire := fun _ => .exn "down"

/-- A cloud endpoint failing the first (structuring) call and answering the
second (evaluation) call with `evFull`. -/
def gwireFailFirst : Nat → GptWire :=
  fun n => if n = 0 then .exn "down" else .content (some "EV")

/-- A one-page document with extractable text. -/
def pdfHola : PdfDoc := .pages [some "hola"]

/-- Three stored rows, two of which are "Apto" up to case. -/
def dashRows : List StoredRow :=
  [⟨"a", .obj [], 80, "Apto", "r1"⟩,
   ⟨"b", .obj [], 40, "No Apto", "r2"⟩,
   ⟨"c", .obj [], 90, "APTO", "r3"⟩]

/-- A complete local environment for the startup checks. -/
def demoEnv : List (String × String) :=
  [("SUPABASE_URL", "eu"), ("SUPABASE_KEY", "ek"), ("GITHUB_TOKEN", "et")]

example : estructurar_cv_validate (Json.obj []) = some default_cv := rfl
example : evaluar_candidato_validate (Json.num 5) = none := rfl
example : estructurar_cv_validate
    (Json.obj [("nombre", .str "x"), ("email", .str "y"),
               ("habilidades", .arr []), ("experiencia_años", .num 2)]) =
    some (Json.obj [("nombre", .str "x"), ("email", .str "y"),
               ("habilidades", .arr []), ("experiencia_años", .num 2)]) := rfl

/- ==========================================
   Helper lemmas: validation
   ========================================== -/

/-- On a JSON object, the short-circuiting key check computes the `List.all`
of per-key membership. -/
theorem allKeysChecked_obj (ks : List String) (l : List (String × Json)) :
    allKeysChecked ks (.obj l) = some (ks.all (fun k => l.any (fun p => p.1 == k))) := by
  induction ks with
  | nil => simp [allKeysChecked]
  | cons k ks ih =>
    cases h : l.any (fun p => p.1 == k) with
    | false => simp [allKeysChecked, keyMem, h]
    | true => simp [allKeysChecked, keyMem, h, ih]

/-- A key that some pair binds is found by `jsonLookup`. -/
theorem lookup_of_any {l : List (String × Json)} {k : String}
    (h : l.any (fun p => p.1 == k) = true) : ∃ v, jsonLookup l k = some v := by
  induction l with
  | nil => simp at h
  | cons p rest ih =>
    obtain ⟨pk, pv⟩ := p
    by_cases hk : pk = k
    · exact ⟨pv, by simp [jsonLookup, hk]⟩
    · have h2 : rest.any (fun p => p.1 == k) = true := by
        simp only [List.any_cons, Bool.or_eq_true, beq_iff_eq] at h
        exact h.resolve_left hk
      obtain ⟨v, hv⟩ := ih h2
      exact ⟨v, by simp [jsonLookup, hk, hv]⟩

/-- A key that `jsonLookup` finds is bound by some pair. -/
theorem any_of_lookup {l : List (String × Json)} {k : String} {v : Json}
    (h : jsonLookup l k = some v) : l.any (fun p => p.1 == k) = true := by
  induction l with
  | nil => simp [jsonLookup] at h
  | cons p rest ih =>
    obtain ⟨pk, pv⟩ := p
    by_cases hk : pk = k
    · simp [List.any_cons, hk]
    · simp [jsonLookup, hk] at h
      simp [List.any_cons, ih h]

/-- Outcomes of the shared required-key validation: the default record, or
the input unchanged together with a positive key check. -/
theorem validate_some_cases (ks : List String) (default r out : Json)
    (h : validate_required ks default r = some out) :
    out = default ∨ (out = r ∧ allKeysChecked ks r = some true) := by
  unfold validate_required at h
  cases hf : pyFalsy r with
  | true =>
    rw [hf] at h
    simp at h
    exact Or.inl h.symm
  | false =>
    rw [hf] at h
    simp only [Bool.false_eq_true, if_false] at h
    cases hA : allKeysChecked ks r with
    | none => rw [hA] at h; simp at h
    | some b =>
      rw [hA] at h
      cases b with
      | false => simp at h; exact Or.inl h.symm
      | true => simp at h; exact Or.inr ⟨h.symm, rfl⟩

/-- On a JSON object the validation never raises, and passes the object
through exactly when the key check succeeds. -/
theorem validate_obj_shape (ks : List String) (default : Json)
    (l : List (String × Json)) :
    validate_required ks default (.obj l) = some default ∨
      (validate_required ks default (.obj l) = some (.obj l) ∧
       ks.all (fun k => l.any (fun p => p.1 == k)) = true) := by
  cases hf : pyFalsy (Json.obj l) with
  | true =>
    left
    unfold validate_required
    rw [hf]
    simp
  | false =>
    cases h : ks.all (fun k => l.any (fun p => p.1 == k)) with
    | false =>
      left
      unfold validate_required
      rw [hf, allKeysChecked_obj, h]
      simp
    | true =>
      right
      refine ⟨?_, rfl⟩
      unfold validate_required
      rw [hf, allKeysChecked_obj, h]
      simp

/-- A JSON object missing one of the required keys is replaced by the
default record. -/
theorem validate_obj_missing (ks : List String) (default : Json)
    (l : List (String × Json))
    (hks : ks.all (fun k => l.any (fun p => p.1 == k)) = false) :
    validate_required ks default (.obj l) = some default := by
  unfold validate_required
  cases hf : pyFalsy (Json.obj l) with
  | true => simp
  | false => rw [allKeysChecked_obj, hks]; simp

/-- A `.get` on a record produced by the required-key validation never
takes its fallback default, provided the key is required and the default
record binds it. -/
theorem validated_get_flag (ks : List String) (dflt r out : Json)
    (key : String) (d : Json)
    (hv : validate_required ks dflt r = some out)
    (hkey : key ∈ ks)
    (hdef : hasKeyB dflt key = true) :
    ∀ v b, pyGet out key d = some (v, b) → b = false := by
  intro v b hg
  rcases validate_some_cases ks dflt r out hv with h | ⟨h, hall⟩
  · rw [h] at hg
    cases dflt with
    | obj dl =>
      obtain ⟨w, hw⟩ := lookup_of_any (by simpa [hasKeyB] using hdef)
      simp [pyGet, hw] at hg
      exact hg.2
    | null => simp [hasKeyB] at hdef
    | bool x => simp [hasKeyB] at hdef
    | num x => simp [hasKeyB] at hdef
    | str x => simp [hasKeyB] at hdef
    | arr x => simp [hasKeyB] at hdef
  · rw [h] at hg
    cases r with
    | obj l =>
      rw [allKeysChecked_obj] at hall
      have hb : l.any (fun p => p.1 == key) = true := by
        have hall2 := Option.some.inj hall
        exact List.all_eq_true.mp hall2 key hkey
      obtain ⟨w, hw⟩ := lookup_of_any hb
      simp [pyGet, hw] at hg
      exact hg.2
    | null => simp [pyGet] at hg
    | bool x => simp [pyGet] at hg
    | num x => simp [pyGet] at hg
    | str x => simp [pyGet] at hg
    | arr x => simp [pyGet] at hg

/- ==========================================
   Helper lemmas: text extraction
   ========================================== -/

theorem chunksNl_cons (c : List Char) (cs : List (List Char)) :
    chunksNl (c :: cs) = c ++ '\n' :: chunksNl cs := rfl

theorem joinSep_cons2 (c d : List Char) (cs : List (List Char)) :
    joinSep (c :: d :: cs) = c ++ '\n' :: joinSep (d :: cs) := rfl

/-- The loop's concatenation is the spec-side join with one trailing
newline (for a non-empty chunk list). -/
theorem chunksNl_eq_joinSep (c : List Char) (cs : List (List Char)) :
    chunksNl (c :: cs) = joinSep (c :: cs) ++ ['\n'] := by
  induction cs generalizing c with
  | nil => rfl
  | cons d cs ih =>
    rw [chunksNl_cons, ih d, joinSep_cons2]
    simp

/-- Unrolling the extraction loop from an arbitrary accumulator. -/
theorem foldl_pageStep (ps : List (Option String)) (acc : List Char) :
    ps.foldl pageStep acc = acc ++ chunksNl (contribPages ps) := by
  induction ps generalizing acc with
  | nil => simp [contribPages, chunksNl]
  | cons t ps ih =>
    cases t with
    | none => simp [List.foldl_cons, pageStep, contribPages, ih]
    | some s =>
      by_cases hs : s = ""
      · simp [List.foldl_cons, pageStep, hs, contribPages, ih]
      · simp [List.foldl_cons, pageStep, hs, contribPages, ih, chunksNl_cons,
              List.append_assoc]

theorem foldPages_eq (ps : List (Option String)) :
    foldPages ps = chunksNl (contribPages ps) := by
  unfold foldPages
  rw [foldl_pageStep]
  simp

/-- Stripping absorbs the trailing newline added by the loop. -/
theorem pyStrip_append_newline (l : List Char) :
    pyStrip (l ++ ['\n']) = pyStrip l := by
  have hnl : pyIsSpace '\n' = true := by decide
  unfold pyStrip
  rw [List.dropWhile_append]
  cases h : (l.dropWhile pyIsSpace).isEmpty with
  | true =>
    have h0 : l.dropWhile pyIsSpace = [] := by simpa using h
    simp [h0, List.dropWhile_cons, hnl]
  | false =>
    simp only [Bool.false_eq_true, if_false]
    rw [List.reverse_append]
    simp [List.dropWhile_cons, hnl]

/-- The extraction loop's output equals the spec-side trimmed join. -/
theorem pyStrip_foldPages (ps : List (Option String)) :
    pyStrip (foldPages ps) = specExtract ps := by
  unfold specExtract
  rw [foldPages_eq]
  cases hc : contribPages ps with
  | nil => rfl
  | cons c cs => rw [chunksNl_eq_joinSep, pyStrip_append_newline]

/-- A non-Python-whitespace member survives a whitespace `dropWhile`. -/
theorem mem_dropWhile_of_not {c : Char} {l : List Char}
    (hc : c ∈ l) (hw : pyIsSpace c = false) :
    c ∈ l.dropWhile pyIsSpace := by
  have hsplit := List.takeWhile_append_dropWhile pyIsSpace l
  rcases List.mem_append.mp (by rw [hsplit]; exact hc) with h | h
  · exact absurd (List.mem_takeWhile_imp h) (by simp [hw])
  · exact h

/-- A list with a non-Python-whitespace character does not strip to
nothing. -/
theorem pyStrip_ne_nil {c : Char} {l : List Char}
    (hc : c ∈ l) (hw : pyIsSpace c = false) :
    pyStrip l ≠ [] := by
  have h1 := mem_dropWhile_of_not hc hw
  have h2 : c ∈ (l.dropWhile pyIsSpace).reverse := List.mem_reverse.mpr h1
  have h3 := mem_dropWhile_of_not h2 hw
  have h4 : c ∈ pyStrip l := List.mem_reverse.mpr h3
  exact List.ne_nil_of_mem h4

/- ==========================================
   Claim theorems
   ========================================== -/

/-- C1 (amended): in `main.py`, for every JSON-object result returned by the
LLM gateway, `estructurar_cv` hands downstream a record containing all four
required keys ("nombre", "email", "habilidades", "experiencia_años") — keys
outside the four are passed through rather than stripped — and whenever the
object result is empty or misses at least one required key, the output is
exactly the default record (full substitution, never per-field defaults). -/
theorem estructurar_cv_object_validation (l : List (String × Json)) :
    (estructurar_cv_validate (Json.obj l) = some default_cv ∨
      (estructurar_cv_validate (Json.obj l) = some (Json.obj l) ∧
        required_cv_keys.all (fun k => hasKeyB (Json.obj l) k) = true)) ∧
    (∀ out, estructurar_cv_validate (Json.obj l) = some out →
      required_cv_keys.all (fun k => hasKeyB out k) = true) ∧
    (required_cv_keys.all (fun k => hasKeyB (Json.obj l) k) = false →
      estructurar_cv_validate (Json.obj l) = some default_cv) := by
  have hshape := validate_obj_shape required_cv_keys default_cv l
  have hdefkeys : required_cv_keys.all (fun k => hasKeyB default_cv k) = true := rfl
  refine ⟨?_, ?_, ?_⟩
  · rcases hshape with h | ⟨h, hall⟩
    · exact Or.inl h
    · exact Or.inr ⟨h, hall⟩
  · intro out hout
    rcases hshape with h | ⟨h, hall⟩
    · have hx : some out = some default_cv := hout.symm.trans h
      rw [Option.some.inj hx]
      exact hdefkeys
    · have hx : some out = some (Json.obj l) := hout.symm.trans h
      rw [Option.some.inj hx]
      exact hall
  · intro hmiss
    exact validate_obj_missing required_cv_keys default_cv l hmiss

/-- C1 witness: a one-key object is replaced by the full default record. -/
theorem estructurar_cv_object_validation_witness :
    estructurar_cv_validate (Json.obj [("email", Json.str "a@b")]) = some default_cv :=
  (estructurar_cv_object_validation [("email", Json.str "a@b")]).2.2 rfl

/-- C1 counterexample to the claim as stated: a gateway result with the four
required keys plus an extra key is passed through unchanged ("no others"
fails); and in `app.py` a failed structuring call hands the raw empty
mapping downstream (stored as `datos_cv`), not the default record. -/
theorem estructurar_cv_exact_keys_refuted :
    estructurar_cv_validate (Json.obj cvExtraFields) = some (Json.obj cvExtraFields) ∧
    hasKeyB (Json.obj cvExtraFields) "extra" = true ∧
    required_cv_keys.contains "extra" = false ∧
    (app_pipeline loadsFix gwireFailFirst "js" (some pdfHola) (DbOutcome.ok none)).inserted
      = some ⟨Json.str "Desconocido", Json.obj [], Json.num 85, Json.str "Apto", Json.str "ok"⟩ ∧
    required_cv_keys.all (fun k => hasKeyB (Json.obj []) k) = false ∧
    required_cv_keys.all (fun k => hasKeyB default_cv k) = true :=
  ⟨rfl, rfl, rfl, rfl, rfl, rfl⟩

/-- C2 (amended): in `main.py`, for every JSON-object result returned by the
LLM gateway, `evaluar_candidato` hands downstream a record containing all
three required keys ("score", "decision", "razonamiento"), and whenever the
object result is empty or misses at least one required key, the output is
exactly the default record (full substitution). -/
theorem evaluar_candidato_object_validation (l : List (String × Json)) :
    (evaluar_candidato_validate (Json.obj l) = some default_eval ∨
      (evaluar_candidato_validate (Json.obj l) = some (Json.obj l) ∧
        required_eval_keys.all (fun k => hasKeyB (Json.obj l) k) = true)) ∧
    (∀ out, evaluar_candidato_validate (Json.obj l) = some out →
      required_eval_keys.all (fun k => hasKeyB out k) = true) ∧
    (required_eval_keys.all (fun k => hasKeyB (Json.obj l) k) = false →
      evaluar_candidato_validate (Json.obj l) = some default_eval) := by
  have hshape := validate_obj_shape required_eval_keys default_eval l
  have hdefkeys : required_eval_keys.all (fun k => hasKeyB default_eval k) = true := rfl
  refine ⟨?_, ?_, ?_⟩
  · rcases hshape with h | ⟨h, hall⟩
    · exact Or.inl h
    · exact Or.inr ⟨h, hall⟩
  · intro out hout
    rcases hshape with h | ⟨h, hall⟩
    · have hx : some out = some default_eval := hout.symm.trans h
      rw [Option.some.inj hx]
      exact hdefkeys
    · have hx : some out = some (Json.obj l) := hout.symm.trans h
      rw [Option.some.inj hx]
      exact hall
  · intro hmiss
    exact validate_obj_missing required_eval_keys default_eval l hmiss

/-- C2 witness: an object missing "decision" is replaced by the full default
evaluation record. -/
theorem evaluar_candidato_object_validation_witness :
    evaluar_candidato_validate (Json.obj [("score", Json.num 10)]) = some default_eval :=
  (evaluar_candidato_object_validation [("score", Json.num 10)]).2.2 rfl

/-- C2 counterexample to the claim as stated: a truthy non-object gateway
result (an array listing the three key names) passes the membership check
and is handed downstream unchanged, containing no keys at all; and in
`app.py` a failed evaluation call yields per-field defaults at insert time
(rationale "Sin razón"), not the documented default record. -/
theorem evaluar_candidato_default_refuted :
    evaluar_candidato_validate (Json.arr [.str "score", .str "decision", .str "razonamiento"])
      = some (Json.arr [.str "score", .str "decision", .str "razonamiento"]) ∧
    isMapping (Json.arr [.str "score", .str "decision", .str "razonamiento"]) = false ∧
    (app_pipeline loadsFix gwireDown "js" (some pdfHola) (DbOutcome.ok none)).inserted
      = some ⟨Json.str "Desconocido", Json.obj [], Json.num 0, Json.str "Error",
              Json.str "Sin razón"⟩ ∧
    ("Sin razón" == "No se pudo obtener una evaluación válida.") = false :=
  ⟨rfl, rfl, rfl, rfl⟩

/-- C9: a successful inference response whose payload parses to a non-object
JSON value is returned unchanged by both gateways — the mapping output type
is not enforced on successful parses. -/
theorem gateway_nonmapping_passthrough :
    (interactuar_con_ollama loadsFix wireArr200 0).1 = Json.arr [Json.num 1, Json.num 2] ∧
    isMapping (Json.arr [Json.num 1, Json.num 2]) = false ∧
    (interactuar_con_gpt loadsFix gwireNum5 0).res = Json.num 5 ∧
    isMapping (Json.num 5) = false :=
  ⟨rfl, rfl, rfl, rfl⟩

/-- C3 (amended): both LLM gateways issue exactly one request per call (no
retry, no backoff) and return the empty mapping on: transport error, an
HTTP status in 400–599 (`raise_for_status`; statuses outside the 2xx range
but below 400 are not treated as failures), a raised body decode, a missing
`response` field (or a body on which the membership test raises), and a
JSON-parse failure of the textual payload — and likewise for the cloud
gateway on a raised client call, a `None` content, and an unparseable
content. -/
theorem gateway_single_attempt_failure_empty
    (loads : String → Option Json) (wire : Nat → OllamaWire)
    (gwire : Nat → GptWire) (n : Nat) :
    ((interactuar_con_ollama loads wire n).2 = n + 1) ∧
    ((interactuar_con_gpt loads gwire n).count = n + 1) ∧
    (wire n = .netError → (interactuar_con_ollama loads wire n).1 = Json.obj []) ∧
    (∀ s body, wire n = .reply s body → 400 ≤ s → s < 600 →
      (interactuar_con_ollama loads wire n).1 = Json.obj []) ∧
    (∀ s, wire n = .reply s none → (interactuar_con_ollama loads wire n).1 = Json.obj []) ∧
    (∀ s data, wire n = .reply s (some data) → keyMem "response" data = some false →
      (interactuar_con_ollama loads wire n).1 = Json.obj []) ∧
    (∀ s data, wire n = .reply s (some data) → keyMem "response" data = none →
      (interactuar_con_ollama loads wire n).1 = Json.obj []) ∧
    (∀ s dl payload, wire n = .reply s (some (.obj dl)) →
      jsonLookup dl "response" = some (.str payload) → loads payload = none →
      (interactuar_con_ollama loads wire n).1 = Json.obj []) ∧
    (∀ msg, gwire n = .exn msg → (interactuar_con_gpt loads gwire n).res = Json.obj []) ∧
    (gwire n = .content none → (interactuar_con_gpt loads gwire n).res = Json.obj []) ∧
    (∀ s, gwire n = .content (some s) → loads s = none →
      (interactuar_con_gpt loads gwire n).res = Json.obj []) := by
  refine ⟨rfl, ?_, ?_, ?_, ?_, ?_, ?_, ?_, ?_, ?_, ?_⟩
  · cases hg : gwire n with
    | exn m => simp [interactuar_con_gpt, hg]
    | content s =>
      cases s with
      | none => simp [interactuar_con_gpt, hg]
      | some str =>
        cases hl : loads str with
        | none => simp [interactuar_con_gpt, hg, hl]
        | some v => simp [interactuar_con_gpt, hg, hl]
  · intro h
    simp [interactuar_con_ollama, h]
  · intro s body h h4 h6
    have hr : raise_for_status_fails s = true := by
      simp only [raise_for_status_fails, Bool.and_eq_true, decide_eq_true_eq]
      omega
    simp [interactuar_con_ollama, h, hr]
  · intro s h
    cases hr : raise_for_status_fails s with
    | true => simp [interactuar_con_ollama, h, hr]
    | false => simp [interactuar_con_ollama, h, hr]
  · intro s data h hk
    cases hr : raise_for_status_fails s with
    | true => simp [interactuar_con_ollama, h, hr]
    | false => simp [interactuar_con_ollama, ollama_handle_data, h, hr, hk]
  · intro s data h hk
    cases hr : raise_for_status_fails s with
    | true => simp [interactuar_con_ollama, h, hr]
    | false => simp [interactuar_con_ollama, ollama_handle_data, h, hr, hk]
  · intro s dl payload h hlk hld
    cases hr : raise_for_status_fails s with
    | true => simp [interactuar_con_ollama, h, hr]
    | false =>
      have hany : dl.any (fun p => p.1 == "response") = true := any_of_lookup hlk
      simp [interactuar_con_ollama, ollama_handle_data, keyMem, h, hr, hany, hlk, hld]
  · intro msg h
    simp [interactuar_con_gpt, h]
  · intro h
    simp [interactuar_con_gpt, h]
  · intro s h hl
    simp [interactuar_con_gpt, h, hl]

/-- C3 witness: a transport error consumes exactly one attempt and yields
the empty mapping, on both gateways. -/
theorem gateway_single_attempt_failure_empty_witness :
    (interactuar_con_ollama loadsFix wireNetErr 0).2 = 1 ∧
    (interactuar_con_ollama loadsFix wireNetErr 0).1 = Json.obj [] ∧
    (interactuar_con_gpt loadsFix gwireDown 0).count = 1 ∧
    (interactuar_con_gpt loadsFix gwireDown 0).res = Json.obj [] := by
  obtain ⟨h1, h2, h3, _, _, _, _, _, h9, _, _⟩ :=
    gateway_single_attempt_failure_empty loadsFix wireNetErr gwireDown 0
  exact ⟨h1, h3 rfl, h2, h9 "down" rfl⟩

/-- C3 counterexample to the claim as stated: a final response with the
non-2xx status 300 and a well-formed body is not treated as a failure —
the parsed payload is returned instead of the empty mapping. -/
theorem gateway_non2xx_refuted :
    interactuar_con_ollama loadsFix wire300 0 = (Json.num 7, 1) ∧
    isMapping (Json.num 7) = false :=
  ⟨rfl, rfl⟩

/-- A character of a contributing chunk occurs in the loop concatenation. -/
theorem mem_chunksNl {c : Char} {x : List Char} {cs : List (List Char)}
    (hx : x ∈ cs) (hc : c ∈ x) : c ∈ chunksNl cs := by
  induction cs with
  | nil => simp at hx
  | cons d cs ih =>
    rw [chunksNl_cons]
    rcases List.mem_cons.mp hx with h | h
    · subst h
      exact List.mem_append.mpr (Or.inl hc)
    · exact List.mem_append.mpr (Or.inr (List.mem_cons.mpr (Or.inr (ih h))))

/-- C5 (amended): both extractors return the trimmed newline-joined
concatenation of the truthy per-page texts in page order (pages with no
extractable text contribute nothing); for any document with at least one
page whose extracted text contains a character outside Python's
`str.isspace()` class the output is non-empty; and any open/decode error is
caught and converted to the empty string rather than propagated. -/
theorem extractor_join_and_failure (ruta : String) (ps : List (Option String))
    (e : String) :
    (extraer_texto_pdf ruta (.pages ps)).1 = ⟨specExtract ps⟩ ∧
    (extraer_texto_en_memoria (.pages ps)).1 = ⟨specExtract ps⟩ ∧
    ((∃ s, some s ∈ ps ∧ ∃ c ∈ s.data, pyIsSpace c = false) →
      strIsEmpty (extraer_texto_pdf ruta (.pages ps)).1 = false ∧
      strIsEmpty (extraer_texto_en_memoria (.pages ps)).1 = false) ∧
    (extraer_texto_pdf ruta (.failure e)).1 = "" ∧
    (extraer_texto_en_memoria (.failure e)).1 = "" := by
  refine ⟨congrArg String.mk (pyStrip_foldPages ps),
          congrArg String.mk (pyStrip_foldPages ps), ?_, rfl, rfl⟩
  rintro ⟨s, hs, c, hc, hw⟩
  have hsd : s.data ≠ [] := List.ne_nil_of_mem hc
  have hsne : ¬s = "" := by
    intro h
    apply hsd
    rw [h]
  have hmem : s.data ∈ contribPages ps :=
    List.mem_filterMap.mpr ⟨some s, hs, by simp [hsne]⟩
  have hcc : c ∈ foldPages ps := by
    rw [foldPages_eq]
    exact mem_chunksNl hmem hc
  have hne : pyStrip (foldPages ps) ≠ [] := pyStrip_ne_nil hcc hw
  have hb : (pyStrip (foldPages ps)).isEmpty = false := by
    cases hl : pyStrip (foldPages ps) with
    | nil => exact absurd hl hne
    | cons a as => rfl
  exact ⟨hb, hb⟩

/-- C5 witness: a one-page document with the text "a". -/
theorem extractor_join_and_failure_witness :
    (extraer_texto_pdf "cv.pdf" (.pages [some "a"])).1 = "a" ∧
    strIsEmpty (extraer_texto_pdf "cv.pdf" (.pages [some "a"])).1 = false := by
  obtain ⟨h1, h2, h3, h4, h5⟩ :=
    extractor_join_and_failure "cv.pdf" [some "a"] "err"
  refine ⟨rfl, ?_⟩
  exact (h3 ⟨"a", by simp, 'a', by simp [String.data], by decide⟩).1

/-- C5 counterexample to the claim as stated: a page whose extracted text is
truthy (extractable text in the code's sense) but whitespace-only — a
space, a tab, or a no-break space, all stripped by `str.strip()` — still
produces the empty output, because the final strip removes it. -/
theorem extractor_whitespace_page_refuted :
    extraer_texto_pdf "cv.pdf" (.pages [some " "]) = ("", [MainLog.extractOk "cv.pdf"]) ∧
    (" " == "") = false ∧
    extraer_texto_en_memoria (.pages [some "\t"]) = ("", []) ∧
    extraer_texto_pdf "cv.pdf" (.pages [some "\u00A0"])
      = ("", [MainLog.extractOk "cv.pdf"]) :=
  ⟨rfl, rfl, rfl, rfl⟩

/-- C6: for N stored rows of which K have a case-insensitive "Apto"
decision, the rendered approval rate (in tenths of a percent) is within
half a tenth of the exact ratio `1000*K/N` — that is, it equals `100*K/N`
to one decimal place — and for N = 0 no division is performed and the zero
placeholder is shown.  (Modelled from the spec: the dashboard source is not
under `src/`.) -/
theorem dashboard_rate_correct (rows : List StoredRow) :
    (rows.length = 0 → tasaAprobacionDecimas rows = 0) ∧
    (rows.length ≠ 0 →
      2000 * conteoAptos rows ≤ tasaAprobacionDecimas rows * (2 * rows.length) + rows.length ∧
      tasaAprobacionDecimas rows * (2 * rows.length) ≤ 2000 * conteoAptos rows + rows.length) := by
  constructor
  · intro h
    simp [tasaAprobacionDecimas, h]
  · intro hN
    have h2N : 0 < 2 * rows.length := by omega
    have hd := Nat.div_add_mod (2000 * conteoAptos rows + rows.length) (2 * rows.length)
    have hm := Nat.mod_lt (2000 * conteoAptos rows + rows.length) h2N
    simp only [tasaAprobacionDecimas, if_neg hN]
    rw [Nat.mul_comm (2 * rows.length)] at hd
    generalize hp : (2000 * conteoAptos rows + rows.length) / (2 * rows.length)
        * (2 * rows.length) = p at hd ⊢
    generalize hq : (2000 * conteoAptos rows + rows.length) % (2 * rows.length) = q at hd hm
    omega

/-- C6 witness: three rows, two of them "Apto" up to case, give 66.7%. -/
theorem dashboard_rate_correct_witness :
    tasaAprobacionDecimas dashRows = 667 ∧
    2000 * conteoAptos dashRows ≤ tasaAprobacionDecimas dashRows * (2 * dashRows.length)
      + dashRows.length ∧
    tasaAprobacionDecimas dashRows * (2 * dashRows.length)
      ≤ 2000 * conteoAptos dashRows + dashRows.length := by
  refine ⟨rfl, ?_⟩
  exact (dashboard_rate_correct dashRows).2 (by decide)

/-- C4 (amended): whenever extraction yields the empty string, both
pipelines abort before invoking the LLM gateway or the persistence gateway
— zero LLM calls, zero insert calls, nothing persisted — and emit exactly
the extractor's own messages: no dedicated warning accompanies the abort
(an error message appears only when the extractor itself raised). -/
theorem empty_extraction_aborts
    (loads : String → Option Json) (wire : Nat → OllamaWire) (gwire : Nat → GptWire)
    (ruta : String) (doc : PdfDoc) (db : DbOutcome) (job_spec : String) :
    ((extraer_texto_pdf ruta doc).1 = "" →
      procesar_candidato loads wire ruta doc db
        = ⟨0, 0, false, false, (extraer_texto_pdf ruta doc).2⟩) ∧
    (job_spec ≠ "" → (extraer_texto_en_memoria doc).1 = "" →
      app_pipeline loads gwire job_spec (some doc) db
        = ⟨0, 0, none, false, (extraer_texto_en_memoria doc).2⟩) := by
  constructor
  · intro h
    unfold procesar_candidato
    rcases hE : extraer_texto_pdf ruta doc with ⟨t, lg⟩
    rw [hE] at h
    have ht : t = "" := h
    subst ht
    simp
  · intro hj h
    unfold app_pipeline
    rcases hE : extraer_texto_en_memoria doc with ⟨t, lg⟩
    rw [hE] at h
    have ht : t = "" := h
    simp [hj, hE, ht]

/-- C4 witness: a document whose single page has no text layer. -/
theorem empty_extraction_aborts_witness :
    procesar_candidato loadsFix wireT "cv.pdf" (.pages [none]) (.ok none)
      = ⟨0, 0, false, false, [MainLog.extractOk "cv.pdf"]⟩ ∧
    app_pipeline loadsFix gwireT "js" (some (.pages [none])) (.ok none)
      = ⟨0, 0, none, false, []⟩ := by
  obtain ⟨h1, h2⟩ :=
    empty_extraction_aborts loadsFix wireT gwireT "cv.pdf" (.pages [none]) (.ok none) "js"
  exact ⟨h1 rfl, h2 (by decide) rfl⟩

/-- C4 counterexample to the claim as stated: a run aborted on empty
extraction emits no user-visible warning at all — `main.py` even prints its
success message, and `app.py` shows nothing. -/
theorem empty_extraction_warning_refuted :
    procesar_candidato loadsFix wireT "cv.pdf" (.pages []) (.ok none)
      = ⟨0, 0, false, false, [MainLog.extractOk "cv.pdf"]⟩ ∧
    ([MainLog.extractOk "cv.pdf"]).all (fun x => !isWarningMain x) = true ∧
    app_pipeline loadsFix gwireT "js" (some (.pages [])) (.ok none)
      = ⟨0, 0, none, false, []⟩ :=
  ⟨rfl, rfl, rfl⟩

/-- C7 (amended): in `main.py` the insert call is issued at most once (never
retried), a raised insert is caught — the run ends without an exception —
and the failure is logged; `app.py`'s insert (see the counterexample) is
not protected. -/
theorem insert_error_policy (loads : String → Option Json)
    (wire : Nat → OllamaWire) (ruta : String) (doc : PdfDoc) (m : String) :
    (∀ db, (procesar_candidato loads wire ruta doc db).insertAttempts ≤ 1) ∧
    ((procesar_candidato loads wire ruta doc (.exn m)).insertAttempts = 1 →
      (procesar_candidato loads wire ruta doc (.exn m)).raised = false ∧
      MainLog.dbExnErr m ∈ (procesar_candidato loads wire ruta doc (.exn m)).logs) := by
  constructor
  · intro db
    unfold procesar_candidato
    rcases extraer_texto_pdf ruta doc with ⟨t, lg⟩
    (repeat' split) <;> simp
  · unfold procesar_candidato
    rcases extraer_texto_pdf ruta doc with ⟨t, lg⟩
    (repeat' split) <;> intro h <;> simp_all

/-- C7 witness: a full run whose insert raises ends without an exception and
logs the failure. -/
theorem insert_error_policy_witness :
    (procesar_candidato loadsFix wireT "cv.pdf" pdfHola (.exn "boom")).raised = false ∧
    MainLog.dbExnErr "boom" ∈ (procesar_candidato loadsFix wireT "cv.pdf" pdfHola
      (.exn "boom")).logs :=
  (insert_error_policy loadsFix wireT "cv.pdf" pdfHola "boom").2 rfl

/-- C7 counterexample to the claim as stated: in `app.py` the insert call is
not wrapped in a handler — a raised insert propagates and aborts the script
run with an exception. -/
theorem app_insert_error_refuted :
    app_pipeline loadsFix gwireT "js" (some pdfHola) (.exn "boom")
      = ⟨2, 1, none, true, []⟩ ∧
    (app_pipeline loadsFix gwireT "js" (some pdfHola) (.exn "boom")).raised = true :=
  ⟨rfl, rfl⟩

/-- The `data_insercion` fallback defaults of `main.py` are never taken:
whatever the oracles do, every run reports `fallbackUsed = false`. -/
theorem procesar_fallback_false (loads : String → Option Json)
    (wire : Nat → OllamaWire) (ruta : String) (doc : PdfDoc) (db : DbOutcome) :
    (procesar_candidato loads wire ruta doc db).fallbackUsed = false := by
  unfold procesar_candidato
  rcases extraer_texto_pdf ruta doc with ⟨t, lg⟩
  by_cases ht : t = ""
  · simp [ht]
  · simp only [if_neg ht]
    rcases hS : estructurar_cv loads wire 0 with ⟨cvQ, n1⟩
    cases cvQ with
    | none => simp
    | some cv =>
      have hv : estructurar_cv_validate (interactuar_con_ollama loads wire 0).1 = some cv := by
        have hfst := congrArg Prod.fst hS
        simpa [estructurar_cv] using hfst
      cases hg1 : pyGet cv "nombre" (Json.str "Desconocido") with
      | none => simp [hg1]
      | some x =>
        rcases hE2 : evaluar_candidato loads wire n1 with ⟨evQ, n2⟩
        cases evQ with
        | none => simp [hg1, hE2]
        | some ev =>
          have hv2 : evaluar_candidato_validate (interactuar_con_ollama loads wire n1).1
              = some ev := by
            have hfst := congrArg Prod.fst hE2
            simpa [evaluar_candidato] using hfst
          cases hg2 : pyGet ev "score" Json.null with
          | none => simp [hg1, hE2, hg2]
          | some y =>
            cases hg3 : pyGet cv "nombre" (Json.str "Sin Nombre") with
            | none => simp [hg1, hE2, hg2, hg3]
            | some p1 =>
              rcases p1 with ⟨v1, f1⟩
              cases hg4 : pyGet ev "score" (Json.num 0) with
              | none => simp [hg1, hE2, hg2, hg3, hg4]
              | some p2 =>
                rcases p2 with ⟨v2, f2⟩
                cases hg5 : pyGet ev "decision" (Json.str "Error") with
                | none => simp [hg1, hE2, hg2, hg3, hg4, hg5]
                | some p3 =>
                  rcases p3 with ⟨v3, f3⟩
                  cases hg6 : pyGet ev "razonamiento" (Json.str "Sin razón") with
                  | none => simp [hg1, hE2, hg2, hg3, hg4, hg5, hg6]
                  | some p4 =>
                    rcases p4 with ⟨v4, f4⟩
                    have hf1 : f1 = false :=
                      validated_get_flag required_cv_keys default_cv
                        (interactuar_con_ollama loads wire 0).1 cv "nombre"
                        (Json.str "Sin Nombre") hv (by decide) rfl v1 f1 hg3
                    have hf2 : f2 = false :=
                      validated_get_flag required_eval_keys default_eval
                        (interactuar_con_ollama loads wire n1).1 ev "score"
                        (Json.num 0) hv2 (by decide) rfl v2 f2 hg4
                    have hf3 : f3 = false :=
                      validated_get_flag required_eval_keys default_eval
                        (interactuar_con_ollama loads wire n1).1 ev "decision"
                        (Json.str "Error") hv2 (by decide) rfl v3 f3 hg5
                    have hf4 : f4 = false :=
                      validated_get_flag required_eval_keys default_eval
                        (interactuar_con_ollama loads wire n1).1 ev "razonamiento"
                        (Json.str "Sin razón") hv2 (by decide) rfl v4 f4 hg6
                    subst hf1
                    subst hf2
                    subst hf3
                    subst hf4
                    cases db with
                    | exn m2 => simp [hg1, hE2, hg2, hg3, hg4, hg5, hg6]
                    | ok st =>
                      cases st with
                      | none => simp [hg1, hE2, hg2, hg3, hg4, hg5, hg6]
                      | some code =>
                        by_cases hc : code = 201 <;>
                          simp [hc, hg1, hE2, hg2, hg3, hg4, hg5, hg6]

/-- C10: in `main.py`, whenever the persistence step is reached, none of the
four `.get` fallback defaults of `data_insercion` ("Sin Nombre", 0, "Error",
"Sin razón") is taken — the structurer and evaluator guarantee the required
keys are present in the records they return. -/
theorem persistence_no_fallback_defaults (loads : String → Option Json)
    (wire : Nat → OllamaWire) (ruta : String) (doc : PdfDoc) (db : DbOutcome)
    (_h : (procesar_candidato loads wire ruta doc db).insertAttempts = 1) :
    (procesar_candidato loads wire ruta doc db).fallbackUsed = false :=
  procesar_fallback_false loads wire ruta doc db

/-- C10 witness: a full successful run reaches the insert with no fallback
default taken. -/
theorem persistence_no_fallback_defaults_witness :
    (procesar_candidato loadsFix wireT "cv.pdf" pdfHola (.ok (some 201))).fallbackUsed
      = false :=
  persistence_no_fallback_defaults loadsFix wireT "cv.pdf" pdfHola (.ok (some 201)) rfl

/-- C8 (amended): `app.py` resolves exactly three values — store URL, store
credential and endpoint token — from a layered mechanism: the platform
secret store first (abandoned wholesale when it is absent or misses any of
the three keys), the local environment second; startup halts with a
user-visible error exactly when a resolved value is missing or empty.
`main.py` reads only the two store values from the environment and raises
on absence.  The endpoint URL and the model identifier are hardcoded
constants in both entry points, not configuration. -/
theorem config_resolution (secrets : Option (List (String × String)))
    (env : List (String × String)) (u k t : String) :
    (resolveCreds (some [("SUPABASE_URL", u), ("SUPABASE_KEY", k), ("GITHUB_TOKEN", t)]) env
      = (some u, some k, some t)) ∧
    (∀ s, lookupStr s "GITHUB_TOKEN" = none →
      resolveCreds (some s) env = resolveCreds none env) ∧
    ((∃ msg, init_connections secrets env = .halted msg) ↔
      ¬(optTruthy (resolveCreds secrets env).1 = true ∧
        optTruthy (resolveCreds secrets env).2.1 = true ∧
        optTruthy (resolveCreds secrets env).2.2 = true)) ∧
    ((∃ msg, main_startup env = .halted msg) ↔
      ¬(optTruthy (lookupStr env "SUPABASE_URL") = true ∧
        optTruthy (lookupStr env "SUPABASE_KEY") = true)) ∧
    MODELO_NUBE = "gpt-4.1" ∧
    MODELO = "gpt-oss:120b-cloud" ∧
    OLLAMA_API_URL = "http://localhost:11434/api/generate" ∧
    GITHUB_MODELS_BASE_URL = "https://models.inference.ai.azure.com" := by
  refine ⟨rfl, ?_, ?_, ?_, rfl, rfl, rfl, rfl⟩
  · intro s hs
    cases l1 : lookupStr s "SUPABASE_URL" <;>
      cases l2 : lookupStr s "SUPABASE_KEY" <;>
        simp [resolveCreds, hs, l1, l2]
  · rcases hr : resolveCreds secrets env with ⟨u1, r1⟩
    rcases r1 with ⟨k1, t1⟩
    cases ho1 : optTruthy u1 <;> cases ho2 : optTruthy k1 <;> cases ho3 : optTruthy t1 <;>
      simp [init_connections, hr, ho1, ho2, ho3]
  · cases ho1 : optTruthy (lookupStr env "SUPABASE_URL") <;>
      cases ho2 : optTruthy (lookupStr env "SUPABASE_KEY") <;>
        simp [main_startup, ho1, ho2]

/-- C8 witness: complete platform secrets win over the environment, and
secrets missing the token are abandoned wholesale for the environment. -/
theorem config_resolution_witness :
    resolveCreds (some [("SUPABASE_URL", "su"), ("SUPABASE_KEY", "sk"),
        ("GITHUB_TOKEN", "st")]) demoEnv
      = (some "su", some "sk", some "st") ∧
    resolveCreds (some [("SUPABASE_URL", "su")]) demoEnv = resolveCreds none demoEnv := by
  obtain ⟨h1, h2, _, _, _⟩ :=
    config_resolution none demoEnv "su" "sk" "st"
  exact ⟨h1, h2 [("SUPABASE_URL", "su")] rfl⟩

/-- C8 counterexample to the claim as stated: startup succeeds in both entry
points although no endpoint URL and no model identifier are configured
anywhere — they are hardcoded constants, so their "absence" cannot halt
startup. -/
theorem config_required_set_refuted :
    init_connections none [("SUPABASE_URL", "u"), ("SUPABASE_KEY", "k"),
        ("GITHUB_TOKEN", "t")]
      = .started ["u", "k", "t"] ∧
    lookupStr [("SUPABASE_URL", "u"), ("SUPABASE_KEY", "k"), ("GITHUB_TOKEN", "t")]
        "MODEL" = none ∧
    lookupStr [("SUPABASE_URL", "u"), ("SUPABASE_KEY", "k"), ("GITHUB_TOKEN", "t")]
        "ENDPOINT_URL" = none ∧
    MODELO_NUBE = "gpt-4.1" ∧
    GITHUB_MODELS_BASE_URL = "https://models.inference.ai.azure.com" ∧
    main_startup [("SUPABASE_URL", "u"), ("SUPABASE_KEY", "k")] = .started ["u", "k"] :=
  ⟨rfl, rfl, rfl, rfl, rfl, rfl⟩
